import Mathlib

/-
Shallow embedding of the tour-generation backend (Python) of this repository.

Modelling conventions, used throughout:
* Python `str` values that may be `None` are `Option String` (`none` = Python
  `None`); a Python dict field is `Option (Option α)` (`none` = key absent,
  `some v` = key present with value `v`, where `v` may itself be `None`).
* Python floats are embedded as rationals `ℚ`; `float("inf")` is the `⊤` of
  `WithTop ℚ`.  Binary rounding of IEEE floats is not modelled: every numeric
  constant appearing in the code and the claims is an exact decimal.
* Fallible Python code returns `Except String α` (the payload is the exception
  message) or `Option α` where the source converts exceptions to sentinel
  returns.
* External collaborators (the generative-language provider, the
  geocoding/places/directions provider) are oracles passed explicitly as
  function arguments; a provider interaction that raises inside a `try` block
  of the source is an oracle outcome, not a Lean exception.
* Configuration errors (a missing `GOOGLE_MAPS_API_KEY` / `GEMINI_API_KEY`
  environment variable) are outside the model: every function below models the
  behaviour of the source once its provider client is constructible, matching
  the error taxonomy of the specification, which classifies missing-credential
  errors as a separate, immediately-propagating class.
-/

deriving instance DecidableEq for Except

namespace JorianFlow

/- Python `None`-or-`str` values. -/
abbrev PyStr := Option String

/- A field of a Python dict: `none` when the key is absent. -/
abbrev Field (α : Type) := Option (Option α)

/- Python `d.get(key, default)`: the stored value if the key is present
(possibly `None`), otherwise the default. -/
def pyGet {α : Type} (f : Field α) (d : Option α) : Option α := f.getD d

/- Python `needle in haystack` on strings, as character lists. -/
def containsSub (needle : List Char) : List Char → Bool
  | [] => needle.isEmpty
  | c :: t => needle.isPrefixOf (c :: t) || containsSub needle t

/- Python `haystack.split(needle)[0]`: the part before the first occurrence
of `needle` (the whole string when `needle` does not occur). -/
def takeUntilSub (needle : List Char) : List Char → List Char
  | [] => []
  | c :: t => if needle.isPrefixOf (c :: t) then [] else c :: takeUntilSub needle t

/- Decimal value of a digit string. -/
def digitsVal (l : List Char) : Nat := l.foldl (fun n c => 10 * n + (c.toNat - 48)) 0

/- Python `float(s)` on a string made only of digits and dots: defined when
there is at most one dot and at least one digit (`float("")`, `float(".")` and
`float("1.2.3")` raise `ValueError`). -/
def pyFloatOfChars (l : List Char) : Option ℚ :=
  if 2 ≤ l.count '.' then none
  else if l.any Char.isDigit = false then none
  else
    let intPart := l.takeWhile (fun c => c ≠ '.')
    let fracPart := (l.dropWhile (fun c => c ≠ '.')).drop 1
    some ((digitsVal intPart : ℚ) + (digitsVal fracPart : ℚ) / ((10 : ℚ) ^ fracPart.length))

/- Python `int(s)` on a string made only of digits: defined when nonempty. -/
def pyIntOfDigits (l : List Char) : Option Int :=
  if l.isEmpty then none else some (digitsVal l)

/- ASCII lowering of one character.  Python `str.lower` restricted to ASCII,
which covers every unit marker and status string the code compares against. -/
def charLower (c : Char) : Char :=
  if 65 ≤ c.toNat ∧ c.toNat ≤ 90 then Char.ofNat (c.toNat + 32) else c

/- Python `s.lower()`, as a character list. -/
def pyLower (s : String) : List Char := s.data.map charLower

/- The digit/decimal-point filter used by the parsers:
`filter(lambda x: x.isdigit() or x == '.', s)`. -/
def numChars (l : List Char) : List Char := l.filter (fun c => c.isDigit || c = '.')

/- `helpers/tour_helpers.py`, `parse_time_to_minutes` (string inputs).
Branches in source order: `'hour'`, `'min'`, `'day'` substring tests on the
lowered input; the numeric part for `hour`/`day` is the digit/dot filter of the
text before the marker fed to `float`, for `min` the digit filter of the whole
text fed to `int`; no marker yields the fixed default 120.  `float`/`int` on an
empty or ill-formed extraction raises `ValueError`, which this function does
not catch. -/
def parse_time_to_minutes (time_str : String) : Except String Int :=
  if containsSub ("hour").data (pyLower time_str) then
    match pyFloatOfChars (numChars (takeUntilSub ("hour").data (pyLower time_str))) with
    | none => Except.error ("ValueError: could not convert string to float")
    | some hours => Except.ok ⌊hours * 60⌋
  else if containsSub ("min").data (pyLower time_str) then
    match pyIntOfDigits ((pyLower time_str).filter Char.isDigit) with
    | none => Except.error ("ValueError: invalid literal for int with base 10")
    | some n => Except.ok n
  else if containsSub ("day").data (pyLower time_str) then
    match pyFloatOfChars (numChars (takeUntilSub ("day").data (pyLower time_str))) with
    | none => Except.error ("ValueError: could not convert string to float")
    | some days => Except.ok ⌊days * 24 * 60⌋
  else Except.ok 120

/- `helpers/tour_helpers.py`, `parse_distance_to_km` (string inputs).
Branches in source order: `'km' or 'kilometer'`, `'mile'`, `'m' and not 'km'`;
the numeric part for the first two is the digit/dot filter of the text before
the marker (`split('km')[0]` / `split('mile')[0]`), for the meter branch the
digit filter of the whole text; no marker yields the fixed default 5.0. -/
def parse_distance_to_km (distance_str : String) : Except String ℚ :=
  if containsSub ("km").data (pyLower distance_str)
      || containsSub ("kilometer").data (pyLower distance_str) then
    match pyFloatOfChars (numChars (takeUntilSub ("km").data (pyLower distance_str))) with
    | none => Except.error ("ValueError: could not convert string to float")
    | some km => Except.ok km
  else if containsSub ("mile").data (pyLower distance_str) then
    match pyFloatOfChars (numChars (takeUntilSub ("mile").data (pyLower distance_str))) with
    | none => Except.error ("ValueError: could not convert string to float")
    | some miles => Except.ok (miles * (160934 / 100000 : ℚ))
  else if containsSub ("m").data (pyLower distance_str)
      && !(containsSub ("km").data (pyLower distance_str)) then
    match pyFloatOfChars ((pyLower distance_str).filter Char.isDigit) with
    | none => Except.error ("ValueError: could not convert string to float")
    | some meters => Except.ok (meters / 1000)
  else Except.ok (5 : ℚ)

/-
Data model: the Python dicts that carry a POI through the pipeline stages.
Values can be absent, `None`, or a string / integer, hence `Field`.
Keys that never influence control flow or any claim (`reasoning`) are omitted.
-/

/- A Python dict carrying POI data (candidate or ordering-stage). -/
structure PoiDict where
  poi_title : Field String := none
  address : Field String := none
  poi_address : Field String := none
  order : Field Int := none
  story_keywords : Field String := none
  original_index : Field Int := none
deriving DecidableEq

/- One geocoding result, with the `.get` defaults of
`maps_service.verify_poi_exists` already reflected in the field defaults
(an absent key and its default are indistinguishable to the source). -/
structure GeoResult where
  partial_match : Bool := false
  location_type : String := ""
  types : List String := []
deriving DecidableEq

/- The geocoding provider: `Except.error` models an exception raised by the
client (API error or otherwise), which the source converts to `False`. -/
abbrev GeoOracle := String → Except Unit (List GeoResult)

/- `maps_service.py`, `verify_poi_exists`: geocode the address and accept only
a non-partial first result whose location type is `ROOFTOP` or
`RANGE_INTERPOLATED` and whose types meet the valid-type list; any provider
exception yields `False`.  The title is used only in log output. -/
def valid_types : List String :=
  ["street_address", "premise", "establishment", "point_of_interest"]

def verify_poi_exists (geo : GeoOracle) (poi_title address : String) : Bool :=
  match geo address with
  | Except.error _ => false
  | Except.ok [] => false
  | Except.ok (result :: _) =>
    if result.partial_match then false
    else if !(result.location_type = "ROOFTOP" || result.location_type = "RANGE_INTERPOLATED") then
      false
    else if !(valid_types.any (fun t => result.types.contains t)) then false
    else true

/- `maps_service.py`, `verify_multiple_pois`: keep, in order, the POIs with a
truthy title and address that `verify_poi_exists` confirms. -/
def verify_multiple_pois (geo : GeoOracle) (pois : List PoiDict) : List PoiDict :=
  pois.filter (fun poi =>
    match pyGet poi.poi_title (some ("")), pyGet poi.address (some ("")) with
    | some t, some a =>
      if t.isEmpty || a.isEmpty then false
      else verify_poi_exists geo t a
    | _, _ => false)

/- One `find_place` candidate from the places provider.  `none` fields model
absent keys (explicit JSON nulls inside a places candidate are not
distinguished from absent keys; neither occurs in any claim). -/
structure PlaceCandidate where
  place_id : Option String := none
  name : Option String := none
  formatted_address : Option String := none
deriving DecidableEq

/- The places provider: `none` models every path the source converts to
`None` (falsy result, missing `candidates` key, empty candidate list, API
error, any other exception).  The query combines a title and an address that
may each be Python `None`. -/
abbrev PlaceOracle := Option String → Option String → Option PlaceCandidate

/- The dict built by `maps_service.get_place_details` on a hit. -/
structure PlaceDetails where
  google_place_id : Option String
  google_maps_name : Option String
  formatted_address : Option String
deriving DecidableEq

/- `maps_service.py`, `get_place_details`: `None` on a miss or provider
error; on a hit, the three keys with the documented `.get` defaults. -/
def get_place_details (place : PlaceOracle) (poi_title address : Option String) :
    Option PlaceDetails :=
  match place poi_title address with
  | none => none
  | some candidate =>
    some
      { google_place_id := some (candidate.place_id.getD (""))
        google_maps_name :=
          match candidate.name with
          | some n => some n
          | none => poi_title
        formatted_address :=
          match candidate.formatted_address with
          | some f => some f
          | none => address }

/- The dict built by `poi_service.enrich_poi_with_details` for one POI.
`gps_location` is structurally richer in Python but is never populated by
this code path (the `get_place_details` dict has no such key), so a string
stands in. -/
structure EnrichedPoi where
  order : Option Int
  google_place_id : Option String
  google_place_img_url : Option String
  address : Option String
  google_maps_name : Option String
  story : Option String
  pin_image_url : Option String
  story_keywords : Option String
  gps_location : Option String
deriving DecidableEq

/- `poi_service.py`, `enrich_poi_with_details`: resolve the POI through a
places lookup; on a hit take the provider identity and formatted address, on
a miss build the degraded record keeping the original title and address.
`photo_url` and `gps_location` are read from keys `get_place_details` never
sets, so both are always null. -/
def enrich_poi_with_details (place : PlaceOracle) (ordered_poi : PoiDict) : EnrichedPoi :=
  let poi_title := pyGet ordered_poi.poi_title (some (""))
  let poi_address := pyGet ordered_poi.poi_address (some (""))
  let order := pyGet ordered_poi.order (some 0)
  let story_keywords := pyGet ordered_poi.story_keywords none
  match get_place_details place poi_title poi_address with
  | some place_details =>
    { order := order
      google_place_id := place_details.google_place_id
      google_place_img_url := none
      address := place_details.formatted_address
      google_maps_name := place_details.google_maps_name
      story := none
      pin_image_url := none
      story_keywords := story_keywords
      gps_location := none }
  | none =>
    { order := order
      google_place_id := some ("")
      google_place_img_url := none
      address := poi_address
      google_maps_name := poi_title
      story := none
      pin_image_url := none
      story_keywords := story_keywords
      gps_location := none }

/- `poi_service.py`, `enrich_pois_with_details`: enrich every ordered POI. -/
def enrich_pois_with_details (place : PlaceOracle) (ordered_pois : List PoiDict) :
    List EnrichedPoi :=
  ordered_pois.map (enrich_poi_with_details place)

/-
Directions and route metrics.
-/

/- One leg of a directions route; `none` models an absent `distance`/
`duration` dict or `value` key, which the source sums as 0. -/
structure RouteLeg where
  distanceValue : Option ℚ := none
  durationValue : Option ℚ := none
deriving DecidableEq

/- One route of a directions response. -/
structure Route where
  legs : List RouteLeg := []
deriving DecidableEq

/- The directions provider, taking origin, destination, intermediate
waypoints and travel mode; `Except.error` models a raised exception (API
error or otherwise), which the source converts to infinite metrics. -/
abbrev DirOracle := String → PyStr → List PyStr → String → Except Unit (List Route)

/- The dict returned by `calculate_route_metrics`; `⊤` is `float("inf")`. -/
structure RouteMetrics where
  total_distance_km : WithTop ℚ
  total_duration_minutes : WithTop ℚ
deriving DecidableEq

/- `maps_service.py`, `calculate_route_metrics`: drop waypoints equal to the
origin; with none left return zero metrics without consulting the provider;
otherwise request directions with the last remaining waypoint as destination
and the rest as intermediate stops, and sum the leg values (infinite metrics
on an empty result or a provider exception). -/
def calculate_route_metrics (dirO : DirOracle) (origin : String) (waypoints : List PyStr)
    (mode : String) : RouteMetrics :=
  let clean_waypoints := waypoints.filter (fun wp => wp ≠ some origin)
  if clean_waypoints.isEmpty then
    { total_distance_km := ((0 : ℚ) : WithTop ℚ)
      total_duration_minutes := ((0 : ℚ) : WithTop ℚ) }
  else
    match dirO origin (clean_waypoints.getLast?.getD none) clean_waypoints.dropLast mode with
    | Except.error _ => { total_distance_km := ⊤, total_duration_minutes := ⊤ }
    | Except.ok [] => { total_distance_km := ⊤, total_duration_minutes := ⊤ }
    | Except.ok (route :: _) =>
      let total_distance_meters := (route.legs.map (fun leg => leg.distanceValue.getD 0)).sum
      let total_duration_seconds := (route.legs.map (fun leg => leg.durationValue.getD 0)).sum
      { total_distance_km := ((total_distance_meters / 1000 : ℚ) : WithTop ℚ)
        total_duration_minutes := ((total_duration_seconds / 60 : ℚ) : WithTop ℚ) }

/-
Ordering: `gemini_service.order_pois_for_tour` and the bounded retry loop of
`tour_orchestration_service.order_pois_with_retry`.
-/

/- `gemini_service.py`, `order_pois_for_tour`.  The provider response is
`some l` exactly when the call succeeded and yielded JSON with an
`ordered_pois` list of dicts (anything else — a raised call, unparseable
text, a missing key, a non-list, non-dict elements — is caught by the
source's handlers and is `none` here); on `none` the deterministic fallback
re-emits the input POIs with sequential ranks, reading titles via
`poi.get('poi_title')` and addresses via `poi.get('poi_address')` (note the
key: input candidates carry their address under `address`).  The prompt-only
arguments (user address, constraints, theme, feedback) influence only the
provider and are absorbed by the response oracle. -/
def order_pois_for_tour (resp : Option (List PoiDict)) (pois : List PoiDict) : List PoiDict :=
  match resp with
  | some ordered_pois => ordered_pois
  | none =>
    pois.enum.map (fun p =>
      { original_index := some (some ((p.1 : Int) + 1))
        poi_title := some (pyGet p.2.poi_title none)
        poi_address := some (pyGet p.2.poi_address none)
        order := some (some ((p.1 : Int) + 1)) })

/- The provider behaviour visible to one run of the retry loop, indexed by
the attempt number: the ordering response for each attempt and the
directions behaviour during that attempt.  Indexing by attempt subsumes any
dependence of the provider on the feedback string. -/
structure OrderingEnv where
  orderResp : Nat → Option (List PoiDict)
  dir : Nat → DirOracle

/- The ordered list produced within attempt `i`. -/
def attempt_ordered (env : OrderingEnv) (pois : List PoiDict) (i : Nat) : List PoiDict :=
  order_pois_for_tour (env.orderResp i) pois

/- The route metrics computed within attempt `i`: waypoints are the
`poi_address` values of the attempt's ordered list. -/
def attempt_metrics (env : OrderingEnv) (pois : List PoiDict) (user_address : String)
    (i : Nat) : RouteMetrics :=
  calculate_route_metrics (env.dir i) user_address
    ((attempt_ordered env pois i).map (fun poi => pyGet poi.poi_address (some ("")))) ("walking")

/- The acceptance check of attempt `i`: parse both limits (a `ValueError`
from a parser propagates) and compare the metrics against the limits with
the 10% tolerance buffer. -/
def attempt_accepted (env : OrderingEnv) (pois : List PoiDict)
    (user_address max_time distance : String) (i : Nat) : Except String Bool :=
  let m := attempt_metrics env pois user_address i
  match parse_distance_to_km distance with
  | Except.error e => Except.error e
  | Except.ok limit_distance =>
    match parse_time_to_minutes max_time with
    | Except.error e => Except.error e
    | Except.ok limit_time =>
      Except.ok (decide
        (m.total_distance_km ≤ ((limit_distance * (11 / 10 : ℚ) : ℚ) : WithTop ℚ) ∧
          m.total_duration_minutes ≤ (((limit_time : ℚ) * (11 / 10 : ℚ) : ℚ) : WithTop ℚ)))

/- `tour_orchestration_service.py`, the body of `order_pois_with_retry`:
attempt `i` with `fuel` loop iterations left.  Acceptance breaks out with the
attempt's list; on the final iteration the attempt's list is returned anyway
(best effort); `fuel = 0` returns the initial empty `ordered_pois`. -/
def order_loop (env : OrderingEnv) (pois : List PoiDict)
    (user_address max_time distance : String) : Nat → Nat → Except String (List PoiDict)
  | _, 0 => Except.ok []
  | i, fuel + 1 =>
    let ordered := attempt_ordered env pois i
    match attempt_accepted env pois user_address max_time distance i with
    | Except.error e => Except.error e
    | Except.ok true => Except.ok ordered
    | Except.ok false =>
      if fuel = 0 then Except.ok ordered
      else order_loop env pois user_address max_time distance (i + 1) fuel

/- `max_retries = 4` in `order_pois_with_retry`. -/
def max_retries : Nat := 4

/- `tour_orchestration_service.py`, `order_pois_with_retry` (the theme
argument is prompt-only and lives in the oracle). -/
def order_pois_with_retry (env : OrderingEnv) (pois : List PoiDict)
    (user_address max_time distance : String) : Except String (List PoiDict) :=
  order_loop env pois user_address max_time distance 0 max_retries

/- Instrumentation of the same loop: how many attempts execute before it
stops (by acceptance, by a propagating parse error, or by exhaustion). -/
def attempts_used (env : OrderingEnv) (pois : List PoiDict)
    (user_address max_time distance : String) : Nat → Nat → Nat
  | _, 0 => 0
  | i, fuel + 1 =>
    match attempt_accepted env pois user_address max_time distance i with
    | Except.error _ => 1
    | Except.ok true => 1
    | Except.ok false =>
      if fuel = 0 then 1
      else 1 + attempts_used env pois user_address max_time distance (i + 1) fuel

/-
Guardrail validation and narrative generation (`gemini_service.py`).
-/

/- Outcome of the guardrail provider interaction, as the source's handlers
classify it: a raised call, a `JSONDecodeError` after fence stripping, a
JSON object with no `valid` key (raises inside the `try`, caught by the
generic handler), or a parsed object whose `valid` truthiness is `b`. -/
inductive GuardrailOutcome where
  | apiError
  | unparseable
  | missingValid
  | parsed (b : Bool)
deriving DecidableEq

/- `gemini_service.py`, `validate_user_request_guardrail`: every non-parsed
outcome is converted to `False` by the handlers; a parsed outcome returns
the truthiness of `valid`.  The function raises only for a missing
credential (outside the model); it never propagates a response error. -/
def validate_user_request_guardrail (outcome : GuardrailOutcome) : Bool :=
  match outcome with
  | GuardrailOutcome.parsed b => b
  | _ => false

/- `routes/tour.py`, the `/guardrail` endpoint (line 720): the created
tour's status is `valid` or `invalid` according to the verdict, and the
background pipeline is started only on `valid`. -/
def guardrail_tour_status (outcome : GuardrailOutcome) : String :=
  if validate_user_request_guardrail outcome then "valid" else "invalid"

/- `gemini_service.py`, `generate_narrative_stories`: `none` models every
failure the handler converts to the unmodified input (raised call, bad JSON,
missing or non-list `stories`); `some stories` maps stories by position and
backfills missing positions with the fixed placeholder. -/
def generate_narrative_stories (storiesResp : Option (List String))
    (pois : List EnrichedPoi) : List EnrichedPoi :=
  match storiesResp with
  | none => pois
  | some stories =>
    pois.enum.map (fun p =>
      if h : p.1 < stories.length then { p.2 with story := some (stories.get ⟨p.1, h⟩) }
      else { p.2 with story := some ("Visit loop: Enjoy this location!") })

/-
The tour store record and the orchestrated pipeline
(`tour_service.py`, `tour_orchestration_service.py`).
-/

/- The store record for one tour (the fields the pipeline reads or writes;
the store lookup by id always finds the record in this single-tour model). -/
structure Tour where
  status_code : String
  theme : String
  pois : List EnrichedPoi
  filtered_candidate_poi_list : List PoiDict
  introduction : Option String
  error_message : Option String
deriving DecidableEq

/- `tour_service.update_tour_status`. -/
def update_tour_status (t : Tour) (status_code : String) : Tour :=
  { t with status_code := status_code }

/- `tour_service.update_filtered_pois`. -/
def update_filtered_pois (t : Tour) (filtered_pois : List PoiDict) : Tour :=
  { t with filtered_candidate_poi_list := filtered_pois }

/- `tour_service.finalize_tour`: replace `pois` wholesale and mark
completed. -/
def finalize_tour (t : Tour) (enriched_pois : List EnrichedPoi) : Tour :=
  { t with pois := enriched_pois, status_code := "completed" }

/- `tour_service.mark_tour_failed`. -/
def mark_tour_failed (t : Tour) (msg : String) : Tour :=
  { t with status_code := "failed", error_message := some msg }

/-- Modelled from the spec: `generate_tour_introduction` is imported and
called by `process_tour_generation` (step 6) but is defined in no source
file of the repository; per the specification's control flow and error
taxonomy it is one more generative-provider call that returns introduction
text or raises, and an exception it raises converts the tour to `failed`
like any other unhandled pipeline exception. -/
def generate_tour_introduction (introResp : Except String String) : Except String String :=
  introResp

/- Provider behaviour visible to one full pipeline run. -/
structure PipelineEnv where
  genResp : Except String (List PoiDict)
  geo : GeoOracle
  ordering : OrderingEnv
  place : PlaceOracle
  introResp : Except String String
  storiesResp : Option (List String)

/- `tour_orchestration_service.py`, `process_tour_generation`: the staged
pipeline over the store record.  Status updates are applied in source order;
any raised step lands in the handlers, which mark the tour failed (the
zero-survivors path was already marked inside `verify_and_store_pois`, and
the `ValueError` handler skips re-marking exactly that message).  The theme
is read back from the store before ordering. -/
def process_tour_generation (env : PipelineEnv) (t0 : Tour)
    (user_address max_time distance custom_message : String) : Tour :=
  let t1 := update_tour_status t0 ("geocoding")
  let t2 := update_tour_status t1 ("generating_pois")
  match env.genResp with
  | Except.error e => mark_tour_failed t2 e
  | Except.ok pois_data =>
    let t3 := update_tour_status t2 ("filtering_pois")
    let verified_pois_list := verify_multiple_pois env.geo pois_data
    let t4 := update_filtered_pois t3 verified_pois_list
    if verified_pois_list.isEmpty then
      mark_tour_failed (update_tour_status t4 ("failed"))
        ("No POIs could be verified in the specified area")
    else
      let t5 := update_tour_status t4 ("generating_tour")
      match order_pois_with_retry env.ordering verified_pois_list user_address max_time
          distance with
      | Except.error e => mark_tour_failed t5 e
      | Except.ok ordered_pois =>
        let enriched_pois := enrich_pois_with_details env.place ordered_pois
        match generate_tour_introduction env.introResp with
        | Except.error e => mark_tour_failed t5 e
        | Except.ok introduction =>
          let t6 := { t5 with introduction := some introduction }
          let pois_with_stories := generate_narrative_stories env.storiesResp enriched_pois
          finalize_tour t6 pois_with_stories

/-
Concrete fixtures used to evaluate the embedding on closed inputs.
-/

/- A candidate POI as emitted by `generate_pois` (keys `poi_title` and
`address`, both validated present). -/
def sampleCandidate : PoiDict :=
  { poi_title := some (some ("Merlion Park"))
    address := some (some ("1 Fullerton Road, Singapore 049213")) }

/- A precise geocoding result that passes every check of
`verify_poi_exists`. -/
def preciseGeoResult : GeoResult :=
  { partial_match := false
    location_type := "ROOFTOP"
    types := ["establishment", "tourist_attraction"] }

/- A geocoder that confirms every address precisely. -/
def confirmGeo : GeoOracle := fun _ => Except.ok [preciseGeoResult]

/- A directions provider that always raises. -/
def downDir : DirOracle := fun _ _ _ _ => Except.error ()

/- A directions provider returning one route with no legs (zero totals). -/
def zeroDir : DirOracle := fun _ _ _ _ => Except.ok [{ legs := [] }]

/- A fresh tour record as the guardrail endpoint stores it on `valid`. -/
def tour0 : Tour :=
  { status_code := "valid"
    theme := "historical sites"
    pois := []
    filtered_candidate_poi_list := []
    introduction := none
    error_message := none }

/- A pipeline environment in which every ordering response is unparseable
(the fallback runs each attempt), the directions provider reports a
zero-length route, the places lookup always misses, and the narrative
provider fails. -/
def envFallback : PipelineEnv :=
  { genResp := Except.ok [sampleCandidate]
    geo := confirmGeo
    ordering := { orderResp := fun _ => none, dir := fun _ => zeroDir }
    place := fun _ _ => none
    introResp := Except.ok ("Welcome to the tour")
    storiesResp := none }

/- An ordering-stage POI dict as a successful provider response carries it. -/
def orderedStop : PoiDict :=
  { poi_title := some (some ("Sri Mariamman Temple"))
    poi_address := some (some ("244 South Bridge Road, Singapore 058793"))
    order := some (some 1)
    story_keywords := some (some ("heritage, temple, chinatown")) }

/- An ordering environment whose provider always returns the single stop
above and whose directions provider always raises: every attempt is
constraint-violating (infinite metrics). -/
def overshootOrdering : OrderingEnv :=
  { orderResp := fun _ => some [orderedStop], dir := fun _ => downDir }

/- A pipeline environment around `overshootOrdering`: generation and
verification succeed, every ordering attempt overshoots, enrichment misses,
both narrative calls succeed. -/
def envOvershoot : PipelineEnv :=
  { genResp := Except.ok [sampleCandidate]
    geo := confirmGeo
    ordering := overshootOrdering
    place := fun _ _ => none
    introResp := Except.ok ("Welcome to the tour")
    storiesResp := some [("A quiet start to the walk.")] }

/- An ordering environment whose first response is an empty ordered list. -/
def emptyOrdering : OrderingEnv :=
  { orderResp := fun _ => some [], dir := fun _ => downDir }

/-
Specification-side predicates, written from the claims being checked (to be
compared with the source-side definitions above).
-/

/- The acceptance condition of claim C6, as the claim words it: a non-empty
title, a non-empty address, and a geocode lookup that returns at least one
result whose top entry is not a partial match, carries a precise location
type, and carries one of the concrete place types. -/
def poiAcceptedSpec (geo : GeoOracle) (poi : PoiDict) : Prop :=
  ∃ t a, pyGet poi.poi_title (some ("")) = some t ∧ pyGet poi.address (some ("")) = some a ∧
    t ≠ "" ∧ a ≠ "" ∧
    ∃ r rs, geo a = Except.ok (r :: rs) ∧
      r.partial_match = false ∧
      (r.location_type = "ROOFTOP" ∨ r.location_type = "RANGE_INTERPOLATED") ∧
      ∃ ty, ty ∈ valid_types ∧ ty ∈ r.types

/- The acceptance condition of claim C2, as the claim words it: the
attempt's total distance and duration are within 110% of the parsed
limits. -/
def constraints_met (env : OrderingEnv) (pois : List PoiDict) (user_address : String)
    (limD : ℚ) (limT : Int) (i : Nat) : Prop :=
  (attempt_metrics env pois user_address i).total_distance_km ≤
      ((limD * (11 / 10 : ℚ) : ℚ) : WithTop ℚ) ∧
    (attempt_metrics env pois user_address i).total_duration_minutes ≤
      (((limT : ℚ) * (11 / 10 : ℚ) : ℚ) : WithTop ℚ)

/-
Helper lemmas (shared).
-/

lemma pyFloatOfChars_nonneg (l : List Char) (q : ℚ) (h : pyFloatOfChars l = some q) :
    0 ≤ q := by
  unfold pyFloatOfChars at h
  split at h
  · exact absurd h (by simp)
  · split at h
    · exact absurd h (by simp)
    · simp only [Option.some.injEq] at h
      subst h
      positivity

lemma pyIntOfDigits_nonneg (l : List Char) (n : Int) (h : pyIntOfDigits l = some n) :
    0 ≤ n := by
  unfold pyIntOfDigits at h
  split at h
  · exact absurd h (by simp)
  · simp only [Option.some.injEq] at h
    subst h
    exact Int.natCast_nonneg _

lemma parse_distance_to_km_nonneg (s : String) (q : ℚ)
    (h : parse_distance_to_km s = Except.ok q) : 0 ≤ q := by
  unfold parse_distance_to_km at h
  split at h
  · split at h
    · exact absurd h (by simp)
    case _ x hx =>
      simp only [Except.ok.injEq] at h
      subst h
      exact pyFloatOfChars_nonneg _ _ hx
  · split at h
    · split at h
      · exact absurd h (by simp)
      case _ x hx =>
        simp only [Except.ok.injEq] at h
        subst h
        exact mul_nonneg (pyFloatOfChars_nonneg _ _ hx) (by norm_num)
    · split at h
      · split at h
        · exact absurd h (by simp)
        case _ x hx =>
          simp only [Except.ok.injEq] at h
          subst h
          exact div_nonneg (pyFloatOfChars_nonneg _ _ hx) (by norm_num)
      · simp only [Except.ok.injEq] at h
        subst h
        norm_num

lemma parse_time_to_minutes_nonneg (s : String) (n : Int)
    (h : parse_time_to_minutes s = Except.ok n) : 0 ≤ n := by
  unfold parse_time_to_minutes at h
  split at h
  · split at h
    · exact absurd h (by simp)
    case _ x hx =>
      simp only [Except.ok.injEq] at h
      subst h
      have := pyFloatOfChars_nonneg _ _ hx
      positivity
  · split at h
    · split at h
      · exact absurd h (by simp)
      case _ x hx =>
        simp only [Except.ok.injEq] at h
        subst h
        exact pyIntOfDigits_nonneg _ _ hx
    · split at h
      · split at h
        · exact absurd h (by simp)
        case _ x hx =>
          simp only [Except.ok.injEq] at h
          subst h
          have := pyFloatOfChars_nonneg _ _ hx
          positivity
      · simp only [Except.ok.injEq] at h
        subst h
        norm_num

lemma attempt_accepted_parsed (env : OrderingEnv) (pois : List PoiDict)
    (user_address max_time distance : String) (limD : ℚ) (limT : Int)
    (hd : parse_distance_to_km distance = Except.ok limD)
    (ht : parse_time_to_minutes max_time = Except.ok limT) (i : Nat) :
    attempt_accepted env pois user_address max_time distance i =
      Except.ok (decide
        ((attempt_metrics env pois user_address i).total_distance_km ≤
            ((limD * (11 / 10 : ℚ) : ℚ) : WithTop ℚ) ∧
          (attempt_metrics env pois user_address i).total_duration_minutes ≤
            (((limT : ℚ) * (11 / 10 : ℚ) : ℚ) : WithTop ℚ))) := by
  unfold attempt_accepted
  rw [hd, ht]

lemma attempt_accepted_isOk (env : OrderingEnv) (pois : List PoiDict)
    (user_address max_time distance : String) (limD : ℚ) (limT : Int)
    (hd : parse_distance_to_km distance = Except.ok limD)
    (ht : parse_time_to_minutes max_time = Except.ok limT) (i : Nat) :
    ∃ b, attempt_accepted env pois user_address max_time distance i = Except.ok b :=
  ⟨_, attempt_accepted_parsed env pois user_address max_time distance limD limT hd ht i⟩

lemma order_loop_ok (env : OrderingEnv) (pois : List PoiDict)
    (user_address max_time distance : String) (limD : ℚ) (limT : Int)
    (hd : parse_distance_to_km distance = Except.ok limD)
    (ht : parse_time_to_minutes max_time = Except.ok limT) :
    ∀ fuel i, ∃ l, order_loop env pois user_address max_time distance i fuel = Except.ok l := by
  intro fuel
  induction fuel with
  | zero => exact fun i => ⟨[], rfl⟩
  | succ n ih =>
    intro i
    obtain ⟨b, hb⟩ :=
      attempt_accepted_isOk env pois user_address max_time distance limD limT hd ht i
    simp only [order_loop, hb]
    cases b with
    | true => exact ⟨_, rfl⟩
    | false =>
      cases n with
      | zero => exact ⟨attempt_ordered env pois i, by simp⟩
      | succ m =>
        obtain ⟨l, hl⟩ := ih (i + 1)
        exact ⟨l, by simpa using hl⟩

lemma order_loop_exhausted (env : OrderingEnv) (pois : List PoiDict)
    (user_address max_time distance : String) :
    ∀ fuel i, 0 < fuel →
      (∀ j, i ≤ j → j < i + fuel →
        attempt_accepted env pois user_address max_time distance j = Except.ok false) →
      order_loop env pois user_address max_time distance i fuel =
        Except.ok (attempt_ordered env pois (i + fuel - 1)) := by
  intro fuel
  induction fuel with
  | zero => intro i h; exact absurd h (by simp)
  | succ n ih =>
    intro i _ hrej
    have hb := hrej i (le_refl i) (by omega)
    simp only [order_loop, hb]
    cases n with
    | zero => simp
    | succ m =>
      have hrec : order_loop env pois user_address max_time distance (i + 1) (m + 1) =
          Except.ok (attempt_ordered env pois (i + 1 + (m + 1) - 1)) :=
        ih (i + 1) (by omega) (fun j h1 h2 => hrej j (by omega) (by omega))
      have hidx : i + 1 + (m + 1) - 1 = i + (m + 1 + 1) - 1 := by omega
      rw [hidx] at hrec
      simpa using hrec

lemma attempt_ordered_congr (env envB : OrderingEnv) (pois : List PoiDict) (i : Nat)
    (h : env.orderResp i = envB.orderResp i) :
    attempt_ordered env pois i = attempt_ordered envB pois i := by
  unfold attempt_ordered
  rw [h]

lemma attempt_metrics_congr (env envB : OrderingEnv) (pois : List PoiDict)
    (user_address : String) (i : Nat) (ho : env.orderResp i = envB.orderResp i)
    (hdir : env.dir i = envB.dir i) :
    attempt_metrics env pois user_address i = attempt_metrics envB pois user_address i := by
  unfold attempt_metrics
  rw [hdir, attempt_ordered_congr env envB pois i ho]

lemma attempt_accepted_congr (env envB : OrderingEnv) (pois : List PoiDict)
    (user_address max_time distance : String) (i : Nat)
    (ho : env.orderResp i = envB.orderResp i) (hdir : env.dir i = envB.dir i) :
    attempt_accepted env pois user_address max_time distance i =
      attempt_accepted envB pois user_address max_time distance i := by
  unfold attempt_accepted
  rw [attempt_metrics_congr env envB pois user_address i ho hdir]

lemma order_loop_congr (env envB : OrderingEnv) (pois : List PoiDict)
    (user_address max_time distance : String) :
    ∀ fuel i, (∀ j, i ≤ j → j < i + fuel →
        env.orderResp j = envB.orderResp j ∧ env.dir j = envB.dir j) →
      order_loop env pois user_address max_time distance i fuel =
        order_loop envB pois user_address max_time distance i fuel := by
  intro fuel
  induction fuel with
  | zero => intro i _; rfl
  | succ n ih =>
    intro i hagree
    have hi := hagree i (le_refl i) (by omega)
    simp only [order_loop,
      attempt_accepted_congr env envB pois user_address max_time distance i hi.1 hi.2,
      attempt_ordered_congr env envB pois i hi.1]
    cases hb : attempt_accepted envB pois user_address max_time distance i with
    | error e => rfl
    | ok b =>
      cases b with
      | true => rfl
      | false =>
        cases n with
        | zero => rfl
        | succ m =>
          simp only [Nat.succ_ne_zero, if_false]
          exact ih (i + 1) (fun j h1 h2 => hagree j (by omega) (by omega))

lemma attempts_used_le (env : OrderingEnv) (pois : List PoiDict)
    (user_address max_time distance : String) :
    ∀ fuel i, attempts_used env pois user_address max_time distance i fuel ≤ fuel := by
  intro fuel
  induction fuel with
  | zero => intro i; simp [attempts_used]
  | succ n ih =>
    intro i
    simp only [attempts_used]
    cases attempt_accepted env pois user_address max_time distance i with
    | error e => exact Nat.succ_le_succ (Nat.zero_le n)
    | ok b =>
      cases b with
      | true => exact Nat.succ_le_succ (Nat.zero_le n)
      | false =>
        cases n with
        | zero => exact Nat.le_refl 1
        | succ m =>
          have hrec := ih (i + 1)
          show 1 + attempts_used env pois user_address max_time distance (i + 1) (m + 1) ≤
            m + 1 + 1
          omega

lemma order_loop_first_accept (env : OrderingEnv) (pois : List PoiDict)
    (user_address max_time distance : String) :
    ∀ fuel i k, i ≤ k → k < i + fuel →
      (∀ j, i ≤ j → j < k →
        attempt_accepted env pois user_address max_time distance j = Except.ok false) →
      attempt_accepted env pois user_address max_time distance k = Except.ok true →
      order_loop env pois user_address max_time distance i fuel =
          Except.ok (attempt_ordered env pois k) ∧
        attempts_used env pois user_address max_time distance i fuel = k + 1 - i := by
  intro fuel
  induction fuel with
  | zero => intro i k _ h; omega
  | succ n ih =>
    intro i k hik hlt hrej hacc
    by_cases hk : i = k
    · subst hk
      refine ⟨?_, ?_⟩
      · simp only [order_loop, hacc]
      · simp only [attempts_used, hacc]
        omega
    · have hb := hrej i (le_refl i) (by omega)
      have hn : n ≠ 0 := by omega
      have hrec := ih (i + 1) k (by omega) (by omega)
        (fun j h1 h2 => hrej j (by omega) h2) hacc
      have h2 := hrec.2
      refine ⟨?_, ?_⟩
      · simp only [order_loop, hb, hn, if_false]
        exact hrec.1
      · simp only [attempts_used, hb, hn, if_false]
        omega

lemma order_loop_result_cases (env : OrderingEnv) (pois : List PoiDict)
    (user_address max_time distance : String) :
    ∀ fuel i l,
      order_loop env pois user_address max_time distance i fuel = Except.ok l →
      l = [] ∨ ∃ j, l = attempt_ordered env pois j := by
  intro fuel
  induction fuel with
  | zero =>
    intro i l h
    simp only [order_loop, Except.ok.injEq] at h
    exact Or.inl h.symm
  | succ n ih =>
    intro i l h
    simp only [order_loop] at h
    cases hb : attempt_accepted env pois user_address max_time distance i with
    | error e => rw [hb] at h; exact absurd h (by simp)
    | ok b =>
      rw [hb] at h
      cases b with
      | true =>
        simp only [Except.ok.injEq] at h
        exact Or.inr ⟨i, h.symm⟩
      | false =>
        cases n with
        | zero =>
          simp only [if_true] at h
          simp only [Except.ok.injEq] at h
          exact Or.inr ⟨i, h.symm⟩
        | succ m =>
          simp only [Nat.succ_ne_zero, if_false] at h
          exact ih (i + 1) l h

lemma attempts_used_exhausted (env : OrderingEnv) (pois : List PoiDict)
    (user_address max_time distance : String) :
    ∀ fuel i,
      (∀ j, i ≤ j → j < i + fuel →
        attempt_accepted env pois user_address max_time distance j = Except.ok false) →
      attempts_used env pois user_address max_time distance i fuel = fuel := by
  intro fuel
  induction fuel with
  | zero => intro i _; rfl
  | succ n ih =>
    intro i hrej
    have hb := hrej i (le_refl i) (by omega)
    simp only [attempts_used, hb]
    cases n with
    | zero => simp
    | succ m =>
      have hrec := ih (i + 1) (fun j h1 h2 => hrej j (by omega) (by omega))
      simp only [Nat.succ_ne_zero, if_false]
      omega

/-
Theorems.
-/

/-- C4: `parse_time_to_minutes` returns the documented conversions and
returns 120 when no unit marker occurs, but on an input that has a unit
marker and no extractable number (such as "hour") it hits `float('')` /
`int('')` and raises `ValueError` instead of returning the documented
default — contradicting its own docstring ("Defaults to 120 (2 hours) if
parsing fails") and the claim that it never raises. -/
theorem parse_time_raises_on_unit_only_input :
    parse_time_to_minutes ("hour") =
        Except.error ("ValueError: could not convert string to float") ∧
      parse_time_to_minutes ("2 hours") = Except.ok 120 ∧
      parse_time_to_minutes ("30 mins") = Except.ok 30 ∧
      parse_time_to_minutes ("1 day") = Except.ok 1440 ∧
      parse_time_to_minutes ("just walking") = Except.ok 120 := by
  with_unfolding_all exact ⟨rfl, rfl, rfl, rfl, rfl⟩

/-- C5: `parse_distance_to_km` returns the documented conversions ("1000 m"
is 1.0 km, "3 miles" is 4.82802 km, "5 km" is 5.0 km) and returns 5.0 when
no unit marker occurs, but on an input that has a unit marker and no
extractable number (such as "m" alone, or "km" alone) it hits `float('')`
and raises `ValueError` instead of returning the documented default —
contradicting its own docstring ("Defaults to 5.0 km if parsing fails") and
the claim that it never raises. -/
theorem parse_distance_raises_on_unit_only_input :
    parse_distance_to_km ("m") =
        Except.error ("ValueError: could not convert string to float") ∧
      parse_distance_to_km ("1000 m") = Except.ok 1 ∧
      parse_distance_to_km ("3 miles") = Except.ok (241401 / 50000) ∧
      parse_distance_to_km ("5 km") = Except.ok 5 ∧
      parse_distance_to_km ("no length given") = Except.ok 5 := by
  with_unfolding_all exact ⟨rfl, rfl, rfl, rfl, rfl⟩

/-- C3: on an unparseable ordering response the fallback returns the input
POIs in order with sequential ranks and the original titles, without
raising — but it reads each address via the key `poi_address`, which the
input candidates do not carry (their address is under `address`), so the
fallback emits `poi_address: None` and the input's address is dropped,
contrary to the claim that the fallback carries the input's address. -/
theorem order_fallback_drops_address :
    order_pois_for_tour none [sampleCandidate] =
      [{ original_index := some (some 1)
         poi_title := some (some ("Merlion Park"))
         poi_address := some none
         order := some (some 1) }] := by
  with_unfolding_all rfl

/-- C9 counterexample: an unparseable guardrail response is converted into
the ordinary negative verdict `False` — the created tour gets status
`invalid`, not `failed`, and no error propagates. -/
theorem guardrail_unparseable_is_invalid_verdict :
    validate_user_request_guardrail GuardrailOutcome.unparseable = false ∧
      guardrail_tour_status GuardrailOutcome.unparseable = "invalid" ∧
      guardrail_tour_status GuardrailOutcome.unparseable ≠ "failed" := by
  refine ⟨rfl, rfl, ?_⟩
  decide

/-- C9 amended: every guardrail provider outcome other than a parsed
response with a truthy `valid` — a raised call, unparseable content, a
missing `valid` key, or a falsy `valid` — yields the verdict `False`, and
the endpoint then stores the tour with status `invalid` (no pipeline runs
and nothing propagates as tour failure). -/
theorem guardrail_response_error_never_fails_tour (outcome : GuardrailOutcome)
    (h : outcome ≠ GuardrailOutcome.parsed true) :
    validate_user_request_guardrail outcome = false ∧
      guardrail_tour_status outcome = "invalid" := by
  cases outcome with
  | apiError => exact ⟨rfl, rfl⟩
  | unparseable => exact ⟨rfl, rfl⟩
  | missingValid => exact ⟨rfl, rfl⟩
  | parsed b =>
    cases b with
    | false => exact ⟨rfl, rfl⟩
    | true => exact absurd rfl h

/-- Witness for the amended C9 theorem at the unparseable outcome. -/
theorem guardrail_response_error_never_fails_tour_witness :
    GuardrailOutcome.unparseable ≠ GuardrailOutcome.parsed true ∧
      validate_user_request_guardrail GuardrailOutcome.unparseable = false ∧
      guardrail_tour_status GuardrailOutcome.unparseable = "invalid" :=
  ⟨by decide,
    guardrail_response_error_never_fails_tour GuardrailOutcome.unparseable (by decide)⟩

/-- C1: with the constraint limits parsed (which holds in every reachable
pipeline run, since tour creation evaluates the same parsers on the same
strings before the pipeline starts), the retry loop (i) always returns an
ordered list — provider misbehaviour never aborts an attempt, it is absorbed
as fallback ordering or infinite metrics —, (ii) executes at most
`max_retries` attempts, (iii) on exhausting all attempts unaccepted returns
the last attempt's ordered result (best effort), (iv) depends only on the
provider's behaviour during the first `max_retries` attempts, and (v) a
pipeline whose generation, verification, and introduction stages succeed
reaches `completed` whatever the acceptance outcomes — in particular on
constraint overshoot in every attempt. -/
theorem order_pois_with_retry_spec (env : OrderingEnv) (pois : List PoiDict)
    (user_address max_time distance : String) (limD : ℚ) (limT : Int)
    (hd : parse_distance_to_km distance = Except.ok limD)
    (ht : parse_time_to_minutes max_time = Except.ok limT) :
    (∃ l, order_pois_with_retry env pois user_address max_time distance = Except.ok l) ∧
      attempts_used env pois user_address max_time distance 0 max_retries ≤ max_retries ∧
      ((∀ j, j < max_retries →
          attempt_accepted env pois user_address max_time distance j = Except.ok false) →
        order_pois_with_retry env pois user_address max_time distance =
          Except.ok (attempt_ordered env pois (max_retries - 1))) ∧
      (∀ envB : OrderingEnv,
        (∀ i, i < max_retries →
          env.orderResp i = envB.orderResp i ∧ env.dir i = envB.dir i) →
        order_pois_with_retry env pois user_address max_time distance =
          order_pois_with_retry envB pois user_address max_time distance) ∧
      (∀ (penv : PipelineEnv) (t0 : Tour) (custom_message : String)
          (ps : List PoiDict) (intro_text : String),
        penv.ordering = env → penv.genResp = Except.ok ps →
        verify_multiple_pois penv.geo ps = pois → pois.isEmpty = false →
        penv.introResp = Except.ok intro_text →
        (process_tour_generation penv t0 user_address max_time distance
            custom_message).status_code = "completed") := by
  refine ⟨?_, ?_, ?_, ?_, ?_⟩
  · exact order_loop_ok env pois user_address max_time distance limD limT hd ht max_retries 0
  · exact attempts_used_le env pois user_address max_time distance max_retries 0
  · intro hrej
    have h := order_loop_exhausted env pois user_address max_time distance max_retries 0
      (by decide) (fun j _ h2 => hrej j (by rwa [Nat.zero_add] at h2))
    rw [Nat.zero_add] at h
    exact h
  · intro envB hagree
    exact order_loop_congr env envB pois user_address max_time distance max_retries 0
      (fun j _ h2 => hagree j (by rwa [Nat.zero_add] at h2))
  · intro penv t0 custom_message ps intro_text h1 h2 h3 h4 h5
    obtain ⟨l, hl⟩ :=
      order_loop_ok env pois user_address max_time distance limD limT hd ht max_retries 0
    have hretry : order_pois_with_retry penv.ordering pois user_address max_time
        distance = Except.ok l := by
      rw [h1]
      exact hl
    simp only [process_tour_generation, h2, h3, h4, hretry, h5,
      generate_tour_introduction, Bool.false_eq_true, if_false, finalize_tour]

/-- Witness for C1: a concrete run in which the directions provider errors
in every attempt (all four attempts overshoot), so the loop exhausts and
returns the fourth attempt's result, and the surrounding pipeline still ends
`completed`. -/
theorem order_pois_with_retry_spec_witness :
    (∃ l, order_pois_with_retry overshootOrdering [sampleCandidate]
        ("Orchard Road, Singapore") ("2 hours") ("5 km") = Except.ok l) ∧
      order_pois_with_retry overshootOrdering [sampleCandidate]
          ("Orchard Road, Singapore") ("2 hours") ("5 km") =
        Except.ok (attempt_ordered overshootOrdering [sampleCandidate] (max_retries - 1)) ∧
      (process_tour_generation envOvershoot tour0 ("Orchard Road, Singapore") ("2 hours")
          ("5 km") ("historical sites")).status_code = "completed" := by
  have h := order_pois_with_retry_spec overshootOrdering [sampleCandidate]
    ("Orchard Road, Singapore") ("2 hours") ("5 km") 5 120
    (by with_unfolding_all rfl) (by with_unfolding_all rfl)
  refine ⟨h.1, h.2.2.1 (fun j hj => ?_), h.2.2.2.2 envOvershoot tour0 ("historical sites")
    [sampleCandidate] ("Welcome to the tour") rfl rfl (by with_unfolding_all rfl) rfl rfl⟩
  with_unfolding_all rfl

/-- C2: with the constraint limits parsed, (i) an attempt is accepted (the
check returns true) iff its total distance and duration are within 110% of
the parsed limits; (ii) a directions-provider error during an attempt whose
waypoint list survives origin-filtering makes both totals infinite and the
attempt unaccepted; (iii) the loop exits early at the first accepted
attempt, returning exactly that attempt's ordered list after exactly that
many attempts; (iv) with no attempt accepted, all `max_retries` attempts are
consumed. -/
theorem order_retry_acceptance_spec (env : OrderingEnv) (pois : List PoiDict)
    (user_address max_time distance : String) (limD : ℚ) (limT : Int)
    (hd : parse_distance_to_km distance = Except.ok limD)
    (ht : parse_time_to_minutes max_time = Except.ok limT) :
    (∀ i, attempt_accepted env pois user_address max_time distance i = Except.ok true ↔
        constraints_met env pois user_address limD limT i) ∧
      (∀ i, (∀ o dst w m, env.dir i o dst w m = Except.error ()) →
        (((attempt_ordered env pois i).map
              (fun poi => pyGet poi.poi_address (some ("")))).filter
            (fun wp => wp ≠ some user_address)).isEmpty = false →
        attempt_metrics env pois user_address i =
            { total_distance_km := ⊤, total_duration_minutes := ⊤ } ∧
          attempt_accepted env pois user_address max_time distance i = Except.ok false) ∧
      (∀ i, i < max_retries →
        (∀ j, j < i →
          attempt_accepted env pois user_address max_time distance j = Except.ok false) →
        attempt_accepted env pois user_address max_time distance i = Except.ok true →
        order_pois_with_retry env pois user_address max_time distance =
            Except.ok (attempt_ordered env pois i) ∧
          attempts_used env pois user_address max_time distance 0 max_retries = i + 1) ∧
      ((∀ j, j < max_retries →
          attempt_accepted env pois user_address max_time distance j = Except.ok false) →
        attempts_used env pois user_address max_time distance 0 max_retries = max_retries) := by
  refine ⟨?_, ?_, ?_, ?_⟩
  · intro i
    rw [attempt_accepted_parsed env pois user_address max_time distance limD limT hd ht i]
    simp [constraints_met]
  · intro i hdir hne
    have hm : attempt_metrics env pois user_address i =
        { total_distance_km := ⊤, total_duration_minutes := ⊤ } := by
      unfold attempt_metrics calculate_route_metrics
      simp only [hne, Bool.false_eq_true, if_false, hdir]
    refine ⟨hm, ?_⟩
    rw [attempt_accepted_parsed env pois user_address max_time distance limD limT hd ht i,
      hm]
    have hnot : ¬ (((⊤ : WithTop ℚ) ≤ ((limD * (11 / 10 : ℚ) : ℚ) : WithTop ℚ)) ∧
        ((⊤ : WithTop ℚ) ≤ (((limT : ℚ) * (11 / 10 : ℚ) : ℚ) : WithTop ℚ))) := by
      intro hcon
      exact absurd (top_le_iff.mp hcon.1) WithTop.coe_ne_top
    rw [decide_eq_false hnot]
  · intro i hi hrej hacc
    have h := order_loop_first_accept env pois user_address max_time distance max_retries 0
      i (Nat.zero_le i) (by rwa [Nat.zero_add]) (fun j _ h2 => hrej j h2) hacc
    exact ⟨h.1, by have h2 := h.2; omega⟩
  · intro hrej
    exact attempts_used_exhausted env pois user_address max_time distance max_retries 0
      (fun j _ h2 => hrej j (by rwa [Nat.zero_add] at h2))

/-- Witness for C2: a provider-error attempt is unaccepted with infinite
metrics, and a first-attempt acceptance returns that attempt's list after
exactly one attempt. -/
theorem order_retry_acceptance_spec_witness :
    (attempt_metrics overshootOrdering [sampleCandidate] ("Orchard Road, Singapore") 0 =
          { total_distance_km := ⊤, total_duration_minutes := ⊤ } ∧
        attempt_accepted overshootOrdering [sampleCandidate] ("Orchard Road, Singapore")
            ("2 hours") ("5 km") 0 = Except.ok false) ∧
      (order_pois_with_retry (OrderingEnv.mk (fun _ => none) (fun _ => zeroDir))
            [sampleCandidate] ("Orchard Road, Singapore") ("2 hours") ("5 km") =
          Except.ok (attempt_ordered (OrderingEnv.mk (fun _ => none) (fun _ => zeroDir))
            [sampleCandidate] 0) ∧
        attempts_used (OrderingEnv.mk (fun _ => none) (fun _ => zeroDir)) [sampleCandidate]
          ("Orchard Road, Singapore") ("2 hours") ("5 km") 0 max_retries = 1) := by
  have hA := order_retry_acceptance_spec overshootOrdering [sampleCandidate]
    ("Orchard Road, Singapore") ("2 hours") ("5 km") 5 120
    (by with_unfolding_all rfl) (by with_unfolding_all rfl)
  have hB := order_retry_acceptance_spec (OrderingEnv.mk (fun _ => none) (fun _ => zeroDir))
    [sampleCandidate] ("Orchard Road, Singapore") ("2 hours") ("5 km") 5 120
    (by with_unfolding_all rfl) (by with_unfolding_all rfl)
  refine ⟨hA.2.1 0 (fun o dst w m => rfl) (by with_unfolding_all rfl),
    hB.2.2.1 0 (by decide) (fun j hj => absurd hj (Nat.not_lt_zero j)) ?_⟩
  with_unfolding_all rfl

lemma verify_poi_exists_iff (geo : GeoOracle) (t a : String) :
    verify_poi_exists geo t a = true ↔
      ∃ r rs, geo a = Except.ok (r :: rs) ∧ r.partial_match = false ∧
        (r.location_type = "ROOFTOP" ∨ r.location_type = "RANGE_INTERPOLATED") ∧
        ∃ ty, ty ∈ valid_types ∧ ty ∈ r.types := by
  unfold verify_poi_exists
  cases hg : geo a with
  | error e => simp
  | ok results =>
    cases results with
    | nil => simp
    | cons r rs =>
      dsimp only
      constructor
      · intro h
        by_cases h1 : r.partial_match = true
        · rw [if_pos h1] at h
          exact absurd h (by simp)
        · rw [if_neg h1] at h
          by_cases h2 :
            (!(r.location_type = "ROOFTOP" || r.location_type = "RANGE_INTERPOLATED")) = true
          · rw [if_pos h2] at h
            exact absurd h (by simp)
          · rw [if_neg h2] at h
            by_cases h3 : (!(valid_types.any (fun ty => r.types.contains ty))) = true
            · rw [if_pos h3] at h
              exact absurd h (by simp)
            · have hX : (r.location_type = "ROOFTOP"
                  || r.location_type = "RANGE_INTERPOLATED") = true := by
                cases hb : (r.location_type = "ROOFTOP"
                    || r.location_type = "RANGE_INTERPOLATED") with
                | true => rfl
                | false => exact absurd (by rw [hb]; rfl) h2
              have hloc : r.location_type = "ROOFTOP" ∨
                  r.location_type = "RANGE_INTERPOLATED" := by
                rw [Bool.or_eq_true] at hX
                simp only [decide_eq_true_eq] at hX
                exact hX
              have hany : ∃ ty, ty ∈ valid_types ∧ ty ∈ r.types := by
                have hX : (valid_types.any (fun ty => r.types.contains ty)) = true := by
                  cases hb : (valid_types.any (fun ty => r.types.contains ty)) with
                  | true => rfl
                  | false => exact absurd (by rw [hb]; rfl) h3
                obtain ⟨ty, hty1, hty2⟩ := List.any_eq_true.mp hX
                exact ⟨ty, hty1, by simpa [List.elem_iff] using hty2⟩
              obtain ⟨ty, hty1, hty2⟩ := hany
              exact ⟨r, rs, rfl, by simpa using h1, hloc, ty, hty1, hty2⟩
      · rintro ⟨r0, rs0, heq, hpm, hloc, ty, hty1, hty2⟩
        have heq2 : r = r0 ∧ rs = rs0 := by
          have := heq
          simp only [Except.ok.injEq, List.cons.injEq] at this
          exact this
        obtain ⟨he1, he2⟩ := heq2
        subst he1
        subst he2
        have h1 : ¬ (r.partial_match = true) := by simp [hpm]
        have h2 : (r.location_type = "ROOFTOP"
            || r.location_type = "RANGE_INTERPOLATED") = true := by
          simpa [Bool.or_eq_true, decide_eq_true_eq] using hloc
        have h3 : (valid_types.any (fun ty2 => r.types.contains ty2)) = true :=
          List.any_eq_true.mpr ⟨ty, hty1, by simpa [List.elem_iff] using hty2⟩
        rw [if_neg h1]
        rw [h2]
        rw [h3]
        simp

/-- C6: `verify_multiple_pois` returns an order-preserving subset (a
sublist) of its input in which a candidate appears exactly when it has a
non-empty title and a non-empty address and its geocode lookup returns at
least one result whose top entry is not a partial match, has location type
ROOFTOP or RANGE_INTERPOLATED, and carries one of the place types
street_address, premise, establishment, or point_of_interest; every other
candidate is dropped silently (the function is total). -/
theorem verify_multiple_pois_spec (geo : GeoOracle) (pois : List PoiDict) :
    List.Sublist (verify_multiple_pois geo pois) pois ∧
      ∀ poi, poi ∈ verify_multiple_pois geo pois ↔
        poi ∈ pois ∧ poiAcceptedSpec geo poi := by
  constructor
  · exact List.filter_sublist pois
  · intro poi
    unfold verify_multiple_pois
    rw [List.mem_filter]
    refine and_congr_right (fun _ => ?_)
    cases ht : pyGet poi.poi_title (some ("")) with
    | none => simp [poiAcceptedSpec, ht]
    | some t =>
      cases ha : pyGet poi.address (some ("")) with
      | none => simp [poiAcceptedSpec, ht, ha]
      | some a =>
        dsimp only
        by_cases hte : t.isEmpty = true
        · constructor
          · intro h
            rw [if_pos (by simp [hte])] at h
            exact absurd h (by simp)
          · rintro ⟨t0, a0, h1, h2, h3, h4, h5⟩
            have het : t0 = t := by
              have := h1.symm.trans ht
              injection this
            have : t = "" := (String.isEmpty_iff t).mp hte
            exact absurd (het.trans this) h3
        · by_cases hae : a.isEmpty = true
          · constructor
            · intro h
              rw [if_pos (by simp [hae])] at h
              exact absurd h (by simp)
            · rintro ⟨t0, a0, h1, h2, h3, h4, h5⟩
              have hea : a0 = a := by
                have := h2.symm.trans ha
                injection this
              have : a = "" := (String.isEmpty_iff a).mp hae
              exact absurd (hea.trans this) h4
          · have hcond : ¬ ((t.isEmpty || a.isEmpty) = true) := by
              simp only [Bool.or_eq_true]
              rintro (hx | hx)
              · exact hte hx
              · exact hae hx
            rw [if_neg hcond, verify_poi_exists_iff geo t a]
            unfold poiAcceptedSpec
            constructor
            · intro h
              refine ⟨t, a, ht, ha, ?_, ?_, h⟩
              · intro heq
                exact hte (by rw [heq]; decide)
              · intro heq
                exact hae (by rw [heq]; decide)
            · rintro ⟨t0, a0, h1, h2, h3, h4, h5⟩
              have het : t0 = t := by
                have := h1.symm.trans ht
                injection this
              have hea : a0 = a := by
                have := h2.symm.trans ha
                injection this
              subst het
              subst hea
              exact h5

/-- C7: `enrich_pois_with_details` is total (it never raises: every provider
failure inside the lookup is converted to a miss) and returns one output per
input POI — the output length always equals the input length —, and whenever
the places lookup for the POI at position `i` misses or errors, the output
at position `i` is the degraded record: empty place id, the original title
as the Google Maps name, the original address unchanged, and null GPS
location and photo URL. -/
theorem enrich_pois_with_details_spec (place : PlaceOracle) (pois : List PoiDict) :
    (enrich_pois_with_details place pois).length = pois.length ∧
      ∀ (i : Nat) (hi : i < pois.length)
        (hi2 : i < (enrich_pois_with_details place pois).length),
        place (pyGet (pois[i]).poi_title (some ("")))
            (pyGet (pois[i]).poi_address (some (""))) = none →
        (enrich_pois_with_details place pois)[i] =
          { order := pyGet (pois[i]).order (some 0)
            google_place_id := some ("")
            google_place_img_url := none
            address := pyGet (pois[i]).poi_address (some (""))
            google_maps_name := pyGet (pois[i]).poi_title (some (""))
            story := none
            pin_image_url := none
            story_keywords := pyGet (pois[i]).story_keywords none
            gps_location := none } := by
  constructor
  · simp [enrich_pois_with_details]
  · intro i hi hi2 hmiss
    simp only [enrich_pois_with_details, List.getElem_map]
    unfold enrich_poi_with_details get_place_details
    simp only [hmiss]

/-- Witness for C7 at a one-element list and an always-missing lookup. -/
theorem enrich_pois_with_details_spec_witness :
    (enrich_pois_with_details (fun _ _ => none) [orderedStop]).length = [orderedStop].length ∧
      (enrich_pois_with_details (fun _ _ => none) [orderedStop])[0]? =
        some
          { order := some 1
            google_place_id := some ("")
            google_place_img_url := none
            address := some ("244 South Bridge Road, Singapore 058793")
            google_maps_name := some ("Sri Mariamman Temple")
            story := none
            pin_image_url := none
            story_keywords := some ("heritage, temple, chinatown")
            gps_location := none } := by
  have h := enrich_pois_with_details_spec (fun _ _ => none) [orderedStop]
  have hlen : 0 < (enrich_pois_with_details (fun _ _ => none) [orderedStop]).length := by
    rw [h.1]
    decide
  have h2 := h.2 0 (by decide) hlen rfl
  refine ⟨h.1, ?_⟩
  rw [List.getElem?_eq_getElem hlen, h2]
  with_unfolding_all rfl

lemma mem_enum_snd {α : Type} (l : List α) (x : Nat × α) (h : x ∈ l.enum) : x.2 ∈ l := by
  have hmap := List.enum_map_snd l
  rw [← hmap]
  exact List.mem_map_of_mem Prod.snd h

lemma fallback_order_not_null (pois : List PoiDict) (q : PoiDict)
    (hq : q ∈ order_pois_for_tour none pois) : q.order ≠ some none := by
  unfold order_pois_for_tour at hq
  obtain ⟨p, _, rfl⟩ := List.mem_map.1 hq
  simp

lemma attempt_ordered_order_not_null (env : OrderingEnv) (pois : List PoiDict) (i : Nat)
    (horacle : ∀ j l, env.orderResp j = some l → ∀ q ∈ l, q.order ≠ some none)
    (q : PoiDict) (hq : q ∈ attempt_ordered env pois i) : q.order ≠ some none := by
  unfold attempt_ordered at hq
  cases ho : env.orderResp i with
  | some l =>
    rw [ho] at hq
    exact horacle i l ho q hq
  | none =>
    rw [ho] at hq
    exact fallback_order_not_null pois q hq

lemma final_pois_order_not_null (place : PlaceOracle) (storiesResp : Option (List String))
    (ordered : List PoiDict) (hord : ∀ q ∈ ordered, q.order ≠ some none) :
    ∀ e ∈ generate_narrative_stories storiesResp (enrich_pois_with_details place ordered),
      e.order ≠ none := by
  intro e he
  have hstep : ∃ w ∈ enrich_pois_with_details place ordered, e.order = w.order := by
    cases storiesResp with
    | none => exact ⟨e, by simpa [generate_narrative_stories] using he, rfl⟩
    | some stories =>
      simp only [generate_narrative_stories] at he
      obtain ⟨p, hp, rfl⟩ := List.mem_map.1 he
      refine ⟨p.2, mem_enum_snd _ _ hp, ?_⟩
      by_cases h : p.1 < stories.length <;> simp [h]
  obtain ⟨w, hw, heq⟩ := hstep
  rw [heq]
  obtain ⟨q, hq, rfl⟩ := List.mem_map.1 (by simpa [enrich_pois_with_details] using hw)
  have hqo := hord q hq
  have horder : (enrich_poi_with_details place q).order = pyGet q.order (some 0) := by
    unfold enrich_poi_with_details
    dsimp only
    cases get_place_details place (pyGet q.poi_title (some ("")))
        (pyGet q.poi_address (some (""))) with
    | some pd => rfl
    | none => rfl
  rw [horder]
  cases hqov : q.order with
  | none => simp [pyGet]
  | some o =>
    cases o with
    | none => exact absurd hqov hqo
    | some v => simp [pyGet, hqov]

/-- C8 counterexample: a reachable run (unparseable ordering responses, so
the fallback supplies the ordered list; a places lookup that misses) whose
final store state is `completed` while its single POI carries a null
address — the claimed invariant that completed tours have non-empty
addresses fails, because the ordering fallback drops the address to `None`
and the enrichment miss propagates it. -/
theorem completed_tour_with_null_address :
    (process_tour_generation envFallback tour0 ("Orchard Road, Singapore") ("2 hours")
          ("5 km") ("historical sites")).status_code = "completed" ∧
      (process_tour_generation envFallback tour0 ("Orchard Road, Singapore") ("2 hours")
          ("5 km") ("historical sites")).pois.map (fun e => e.address) = [none] := by
  with_unfolding_all exact ⟨rfl, rfl⟩

/-- C8 amended: in every pipeline run whose final store state is
`completed`, every element of `pois` has a non-null `order`, provided no
ordering-provider response carries an explicitly null `order` value (an
absent key defaults to 0 and the deterministic fallback always assigns
ranks 1..N); the non-empty-address half of the claimed invariant is false
(see the counterexample). -/
theorem completed_tour_order_not_null (env : PipelineEnv) (t0 : Tour)
    (user_address max_time distance custom_message : String)
    (horacle : ∀ i l, env.ordering.orderResp i = some l → ∀ q ∈ l, q.order ≠ some none)
    (hc : (process_tour_generation env t0 user_address max_time distance
        custom_message).status_code = "completed") :
    ∀ e ∈ (process_tour_generation env t0 user_address max_time distance
        custom_message).pois, e.order ≠ none := by
  unfold process_tour_generation at hc ⊢
  cases hg : env.genResp with
  | error e2 =>
    rw [hg] at hc
    simp [mark_tour_failed] at hc
  | ok ps =>
    rw [hg] at hc
    dsimp only at hc ⊢
    cases hv : (verify_multiple_pois env.geo ps).isEmpty with
    | true =>
      rw [hv] at hc
      simp [mark_tour_failed] at hc
    | false =>
      rw [hv] at hc
      simp only [Bool.false_eq_true, if_false] at hc
      simp only [Bool.false_eq_true, if_false]
      cases hor : order_pois_with_retry env.ordering (verify_multiple_pois env.geo ps)
          user_address max_time distance with
      | error e2 =>
        rw [hor] at hc
        simp [mark_tour_failed] at hc
      | ok ordered =>
        simp only [generate_tour_introduction] at hc ⊢
        rw [hor] at hc
        dsimp only at hc
        cases hi : env.introResp with
        | error e2 =>
          rw [hi] at hc
          simp [mark_tour_failed] at hc
        | ok intro_text =>
          simp only [finalize_tour]
          have hord : ∀ q ∈ ordered, q.order ≠ some none := by
            intro q hq
            rcases order_loop_result_cases env.ordering
                (verify_multiple_pois env.geo ps) user_address max_time distance
                max_retries 0 ordered hor with hnil | ⟨j, hj⟩
            · subst hnil
              exact absurd hq (List.not_mem_nil q)
            · subst hj
              exact attempt_ordered_order_not_null env.ordering _ j horacle q hq
          exact final_pois_order_not_null env.place env.storiesResp ordered hord

/-- Witness for the amended C8 theorem on the fallback run: the completed
tour's single POI has order 1 (non-null). -/
theorem completed_tour_order_not_null_witness :
    (process_tour_generation envFallback tour0 ("Orchard Road, Singapore") ("2 hours")
        ("5 km") ("historical sites")).pois.all
      (fun e => decide (e.order ≠ none)) = true := by
  have horacle : ∀ i l, envFallback.ordering.orderResp i = some l →
      ∀ q ∈ l, q.order ≠ some none := by
    intro i l h
    exact absurd h (by simp [envFallback])
  have hmain := completed_tour_order_not_null envFallback tour0 ("Orchard Road, Singapore")
    ("2 hours") ("5 km") ("historical sites") horacle (by with_unfolding_all rfl)
  rw [List.all_eq_true]
  intro e he
  simpa using hmain e he

/-- C10: a route-metrics request whose waypoints all equal the origin (in
particular an empty waypoint list) returns exactly zero distance and
duration, independently of the directions provider (no call is made); hence
an ordering attempt whose ordered list is empty satisfies the 110% check
(the parsed limits are non-negative) and is accepted at its first
evaluation, the loop returning the empty list. -/
theorem calculate_route_metrics_empty_spec (env : OrderingEnv) (pois : List PoiDict)
    (user_address max_time distance : String) (limD : ℚ) (limT : Int)
    (hd : parse_distance_to_km distance = Except.ok limD)
    (ht : parse_time_to_minutes max_time = Except.ok limT) :
    (∀ (dirO dirB : DirOracle) (origin mode modeB : String) (wps : List PyStr),
      (wps.filter (fun wp => wp ≠ some origin)).isEmpty = true →
      calculate_route_metrics dirO origin wps mode =
          { total_distance_km := ((0 : ℚ) : WithTop ℚ)
            total_duration_minutes := ((0 : ℚ) : WithTop ℚ) } ∧
        calculate_route_metrics dirO origin wps mode =
          calculate_route_metrics dirB origin wps modeB) ∧
      (env.orderResp 0 = some [] →
        attempt_accepted env pois user_address max_time distance 0 = Except.ok true ∧
          order_pois_with_retry env pois user_address max_time distance = Except.ok []) := by
  constructor
  · intro dirO dirB origin mode modeB wps hempty
    constructor
    · simp only [calculate_route_metrics, hempty, if_true]
    · simp only [calculate_route_metrics, hempty, if_true]
  · intro h0
    have hordered : attempt_ordered env pois 0 = [] := by
      unfold attempt_ordered order_pois_for_tour
      rw [h0]
    have hm : attempt_metrics env pois user_address 0 =
        { total_distance_km := ((0 : ℚ) : WithTop ℚ)
          total_duration_minutes := ((0 : ℚ) : WithTop ℚ) } := by
      unfold attempt_metrics
      rw [hordered]
      unfold calculate_route_metrics
      simp
    have hC : ((((0 : ℚ) : WithTop ℚ) ≤ ((limD * (11 / 10 : ℚ) : ℚ) : WithTop ℚ)) ∧
        (((0 : ℚ) : WithTop ℚ) ≤ (((limT : ℚ) * (11 / 10 : ℚ) : ℚ) : WithTop ℚ))) := by
      constructor
      · exact_mod_cast mul_nonneg (parse_distance_to_km_nonneg distance limD hd) (by norm_num)
      · have h1 : (0 : ℚ) ≤ (limT : ℚ) := by
          exact_mod_cast parse_time_to_minutes_nonneg max_time limT ht
        exact_mod_cast mul_nonneg h1 (by norm_num)
    have hacc : attempt_accepted env pois user_address max_time distance 0 =
        Except.ok true := by
      rw [attempt_accepted_parsed env pois user_address max_time distance limD limT hd ht 0,
        hm]
      simp only [decide_eq_true_eq]
      exact congrArg Except.ok (decide_eq_true hC)
    refine ⟨hacc, ?_⟩
    show order_loop env pois user_address max_time distance 0 max_retries = Except.ok []
    have hstep : order_loop env pois user_address max_time distance 0 max_retries =
        Except.ok (attempt_ordered env pois 0) := by
      simp only [max_retries, order_loop, hacc]
    rw [hordered] at hstep
    exact hstep

/-- Witness for C10: the empty waypoint list with two unrelated providers,
and an ordering environment whose first response is the empty list. -/
theorem calculate_route_metrics_empty_spec_witness :
    (calculate_route_metrics downDir ("Orchard Road, Singapore") [] ("walking") =
          { total_distance_km := ((0 : ℚ) : WithTop ℚ)
            total_duration_minutes := ((0 : ℚ) : WithTop ℚ) } ∧
        calculate_route_metrics downDir ("Orchard Road, Singapore") [] ("walking") =
          calculate_route_metrics zeroDir ("Orchard Road, Singapore") [] ("driving")) ∧
      (attempt_accepted emptyOrdering [sampleCandidate] ("Orchard Road, Singapore")
            ("2 hours") ("5 km") 0 = Except.ok true ∧
        order_pois_with_retry emptyOrdering [sampleCandidate] ("Orchard Road, Singapore")
          ("2 hours") ("5 km") = Except.ok []) := by
  have h := calculate_route_metrics_empty_spec emptyOrdering [sampleCandidate]
    ("Orchard Road, Singapore") ("2 hours") ("5 km") 5 120
    (by with_unfolding_all rfl) (by with_unfolding_all rfl)
  exact ⟨h.1 downDir zeroDir ("Orchard Road, Singapore") ("walking") ("driving") [] rfl,
    h.2 rfl⟩

end JorianFlow
